import Mathlib

/-!
Shallow embedding of the LXD cluster membership subsystem (fork Alwoch/lxd),
covering the code paths referenced by the verification claims:

* `lxd/db/raft.go` — raft-node rows (`CreateFirstRaftNode`);
* `lxd/db/networks.go` — network state machine (`CreatePendingNetwork`,
  `NetworkCreated`, `NetworkErrored`, `networkState`);
* `lxd/networks.go` — clustered network creation (`networksPost`,
  `networksPostCluster`, `networkPartiallyCreated`);
* `lxd/cluster/notify.go` — the fan-out notifier (`NewNotifier`);
* `lxd/api_cluster.go` — join-token issuance (`clusterNodesPost`), member
  update (`clusterNodePut` / `clusterNodePatch`), member removal
  (`clusterNodeDelete`), cluster certificate rotation
  (`clusterCertificatePut`), and the leader-side join accept checks
  (`clusterCheckStoragePoolsMatch`, `clusterCheckNetworksMatch`,
  `internalClusterPostAccept`).

Go maps are modelled as association lists, database tables as lists of rows,
fallible Go calls as `Except`/`Option` results, and I/O or RPC outcomes as
explicit boolean parameters of the embedded functions.
-/

namespace LxdSpec

/-! ### Association-list configs (Go `map[string]string`) -/

/-- A Go `map[string]string` as an association list. -/
abbrev Config := List (String × String)

/-- Lookup of a config key with Go's zero-value default `""` for a missing key. -/
def configGet (c : Config) (k : String) : String :=
  ((c.find? (fun kv => kv.1 == k)).map Prod.snd).getD ""

/-- Key set of a config. -/
def configKeys (c : Config) : List String := c.map Prod.fst

/-! ### `lxd/db/raft.go` — raft node rows -/

/-- A row of the `raft_nodes` table (`db.RaftNode`, keeping only the columns
`CreateFirstRaftNode` touches: id, address, name). -/
structure RaftRow where
  id : Nat
  address : String
  name : String
deriving DecidableEq, Repr

/-- The `query.UpsertObject` call with an explicit `id` column
(`INSERT OR REPLACE INTO raft_nodes (id, address, name)`): any existing row
with the same id is replaced and the last-insert id is the explicit id. -/
def upsertRaftRow (rows : List RaftRow) (row : RaftRow) : List RaftRow × Nat :=
  (rows.filter (fun r => r.id ≠ row.id) ++ [row], row.id)

/-- Embedding of `NodeTx.CreateFirstRaftNode` from `lxd/db/raft.go`: upsert the row forcing
`id = 1`, then fail if the resulting id is not 1. -/
def CreateFirstRaftNode (rows : List RaftRow) (address name : String) :
    Except String (List RaftRow) :=
  let res := upsertRaftRow rows ⟨1, address, name⟩
  if res.2 ≠ 1 then
    .error "could not set raft node ID to 1"
  else
    .ok res.1

/-! ### `lxd/db/networks.go` — network state machine -/

/-- Embedding of `db.NetworkState`: the three states of a replicated network. -/
inductive NetworkState where
  | pending
  | created
  | errored
deriving DecidableEq, Repr

/-- Embedding of `db.NetworkTypeBridge`: the only declared `NetworkType` constant. The Go
type is `int`, so other values are representable; we model it as `Nat`. -/
def NetworkTypeBridge : Nat := 0

/-- Embedding of `db.NodeSpecificNetworkConfig` from `lxd/db/networks.go`. -/
def NodeSpecificNetworkConfig : List String := ["bridge.external_interfaces"]

/-- A row of the `networks` table (id, name, state). -/
structure NetworkRow where
  id : Nat
  name : String
  state : NetworkState
deriving DecidableEq, Repr

/-- A row of the `nodes` table (id, name), as far as `CreatePendingNetwork`
needs it. -/
structure NodeRow where
  id : Nat
  name : String
deriving DecidableEq, Repr

/-- A row of the `networks_config` table: network id, node id (`none` for a
global key), key, value. -/
structure NetworkConfigRow where
  networkID : Nat
  nodeID : Option Nat
  key : String
  value : String
deriving DecidableEq, Repr

/-- The slice of the cluster database that `CreatePendingNetwork` reads and
writes: the `networks`, `nodes`, `networks_nodes` and `networks_config`
tables. -/
structure NetDB where
  networks : List NetworkRow
  nodes : List NodeRow
  networksNodes : List (Nat × Nat)
  networksConfig : List NetworkConfigRow
deriving DecidableEq, Repr

/-- Embedding of `networkConfigAdd` from `lxd/db/networks.go`: insert each non-empty config
value, storing node-specific keys against the node id and all other keys
globally (`node_id` NULL). -/
def networkConfigAdd (networkID nodeID : Nat) (conf : Config) : List NetworkConfigRow :=
  (conf.filter (fun kv => kv.2 ≠ "")).map (fun kv =>
    { networkID := networkID
      nodeID := if NodeSpecificNetworkConfig.contains kv.1 then some nodeID else none
      key := kv.1
      value := kv.2 })

/-- Fresh id allocation for an insert into `networks`
(`query.UpsertObject` without an explicit id). -/
def nextNetworkID (db : NetDB) : Nat :=
  (db.networks.map NetworkRow.id).foldr max 0 + 1

/-- Embedding of `ClusterTx.CreatePendingNetwork` from `lxd/db/networks.go` lines 228-308:
reject non-bridge types, look up (or create, in state pending) the network row,
require an existing row to be pending, look up the node, reject a duplicate
`networks_nodes` entry, then record the node entry and its config. -/
def CreatePendingNetwork (db : NetDB) (node name : String) (netType : Nat)
    (conf : Config) : Except String NetDB :=
  if netType ≠ NetworkTypeBridge then
    .error ("Unsupported network type: " ++ toString netType)
  else
    let found := db.networks.filter (fun n => n.name = name)
    if 2 ≤ found.length then
      .error "More than one network exists with the given name"
    else
      let idAndDb : Except String (Nat × NetDB) :=
        match found with
        | [] =>
          let newID := nextNetworkID db
          .ok (newID, { db with networks := db.networks ++ [⟨newID, name, .pending⟩] })
        | row :: _ =>
          if row.state ≠ .pending then
            .error "Network is not in pending state"
          else
            .ok (row.id, db)
      match idAndDb with
      | .error e => .error e
      | .ok (networkID, db1) =>
        match db1.nodes.find? (fun n => n.name = node) with
        | none => .error "No node registered with that name"
        | some nodeInfo =>
          if (db1.networksNodes.filter (fun p => p.1 = networkID ∧ p.2 = nodeInfo.id)).length ≠ 0 then
            .error "The network is already defined on this node"
          else
            .ok { db1 with
              networksNodes := db1.networksNodes ++ [(networkID, nodeInfo.id)]
              networksConfig := db1.networksConfig ++ networkConfigAdd networkID nodeInfo.id conf }

/-! ### `lxd/cluster/notify.go` — the fan-out notifier -/

/-- Embedding of `cluster.NotifierPolicy`: `NotifyAll`, `NotifyAlive`, `NotifyTryAll`. -/
inductive NotifierPolicy where
  | all
  | alive
  | tryAll
deriving DecidableEq, Repr

/-- A member as `NewNotifier` sees it: its address, whether its heartbeat is
stale (`node.IsOffline(offlineThreshold)`) and whether the live probe
(`HasConnectivity`) succeeds. -/
structure NotifyNode where
  address : String
  offline : Bool
  reachable : Bool
deriving DecidableEq, Repr

/-- The peer-selection loop of `NewNotifier`: exclude ourselves and `0.0.0.0`;
a member that is offline by heartbeat and fails the live probe is a fatal
error under `NotifyAll`, skipped under `NotifyAlive`, and still attempted
under `NotifyTryAll`. -/
def selectPeers (policy : NotifierPolicy) (self : String) :
    List NotifyNode → Except String (List String)
  | [] => .ok []
  | node :: rest =>
    if node.address = self ∨ node.address = "0.0.0.0" then
      selectPeers policy self rest
    else if node.offline ∧ ¬node.reachable then
      match policy with
      | .all => .error ("peer node " ++ node.address ++ " is down")
      | .alive => selectPeers policy self rest
      | .tryAll =>
        match selectPeers policy self rest with
        | .error e => .error e
        | .ok peers => .ok (node.address :: peers)
    else
      match selectPeers policy self rest with
      | .error e => .error e
      | .ok peers => .ok (node.address :: peers)

/-- The error produced for one notified peer, carrying whether
`shared.IsConnectionError` holds for it. `none` means the hook succeeded. -/
structure PeerError where
  message : String
  isConnection : Bool
deriving DecidableEq, Repr

/-- The error-collection loop at the end of the notifier closure in
`NewNotifier`: walk the per-peer results in order; an error that is a
connection error under `NotifyAlive` is only logged as a warning and skipped,
any other error is returned; `none` is returned when no error remains. -/
def notifyErrors (policy : NotifierPolicy) :
    List (Option PeerError) → Option PeerError
  | [] => none
  | none :: rest => notifyErrors policy rest
  | some e :: rest =>
    if e.isConnection ∧ policy = .alive then
      notifyErrors policy rest
    else
      some e

/-! ### `lxd/api_cluster.go` — join-token issuance (`clusterNodesPost`) -/

/-- The status of an operation record, as far as the join-token logic reads
it (`op.StatusCode`). -/
inductive OpStatus where
  | running
  | cancelled
  | other
deriving DecidableEq, Repr

/-- A `db.OperationClusterJoinToken` operation as `clusterNodesPost` sees it:
its id, status code, and the `serverName` entry of its metadata (absent when
the metadata has no such key). -/
structure TokenOp where
  id : String
  status : OpStatus
  serverName : Option String
deriving DecidableEq, Repr

/-- The cancellation loop of `clusterNodesPost`: every running join-token
operation whose recorded `serverName` equals the requested name is cancelled;
operations that are not running, or whose metadata has no `serverName`, or
whose name differs, are left untouched. -/
def cancelMatchingTokenOps (reqName : String) (ops : List TokenOp) : List TokenOp :=
  ops.map (fun op =>
    if op.status = .running ∧ op.serverName = some reqName then
      { op with status := .cancelled }
    else op)

/-- Embedding of `clusterNodesPost` (join-token issuance), modelling the operation table:
cancel every running join-token operation recorded for the requested server
name (failing the request if a cancellation RPC fails, before any new
operation is created), then create the new running token operation carrying
the requested server name. -/
def clusterNodesPostTokens (reqName newId : String) (cancelOk : Bool)
    (ops : List TokenOp) : Except String (List TokenOp) :=
  if ¬cancelOk ∧ (ops.any (fun op => op.status = .running ∧ op.serverName = some reqName)) then
    .error "Failed to cancel operation"
  else
    .ok (cancelMatchingTokenOps reqName ops ++ [⟨newId, .running, some reqName⟩])

/-! ### `lxd/api_cluster.go` — member update (`clusterNodePut`) -/

/-- HTTP-level error responses the handlers distinguish. -/
inductive ApiError where
  | badRequest (msg : String)
  | preconditionFailed (msg : String)
  | internalError (msg : String)
  | smartError (msg : String)
deriving DecidableEq, Repr

/-- Embedding of `db.ClusterRoleDatabase`. -/
def ClusterRoleDatabase : String := "database"

/-- The state of one member that `clusterNodePut` reads and writes: its
description and its roles list. -/
structure MemberState where
  description : String
  roles : List String
deriving DecidableEq, Repr

/-- The body of a `PUT`/`PATCH /cluster/members/{name}` request
(`api.ClusterMemberPut`, restricted to the fields the handler applies). -/
structure MemberPutReq where
  description : String
  roles : List String
deriving DecidableEq, Repr

/-- Embedding of `clusterNodePut` from `lxd/api_cluster.go`: after the ETag check, reject
with BadRequest any request that drops the `database` role from a member that
holds it or adds it to a member that does not, and otherwise apply the new
description and roles. Returns the updated member state on success. -/
def clusterNodePut (member : MemberState) (etagOk : Bool) (req : MemberPutReq) :
    Except ApiError MemberState :=
  if ¬etagOk then
    .error (.preconditionFailed "ETag mismatch")
  else if member.roles.contains ClusterRoleDatabase ∧ ¬req.roles.contains ClusterRoleDatabase then
    .error (.badRequest ("The '" ++ ClusterRoleDatabase ++ "' role cannot be dropped at this time"))
  else if ¬member.roles.contains ClusterRoleDatabase ∧ req.roles.contains ClusterRoleDatabase then
    .error (.badRequest ("The '" ++ ClusterRoleDatabase ++ "' role cannot be added at this time"))
  else
    .ok { description := req.description, roles := req.roles }

/-- Embedding of `clusterNodePatch` from `lxd/api_cluster.go`: "Right now, Patch does the
same as Put." -/
def clusterNodePatch (member : MemberState) (etagOk : Bool) (req : MemberPutReq) :
    Except ApiError MemberState :=
  clusterNodePut member etagOk req

/-! ### `lxd/api_cluster.go` — leader-side join accept checks -/

/-- Modelled from the spec: `util.CompareConfigs(config1, config2, exclude)`
(its source file `lxd/util/config.go` is not under `src/`; only its callers
are). Per the spec, global (non-excluded) keys of the two config maps must
match; the comparison reports the first non-excluded key whose values differ
(a key missing from a map reads as the empty string). -/
def CompareConfigs (config1 config2 : Config) (exclude : List String) : Option String :=
  ((configKeys config1 ++ configKeys config2).filter
      (fun k => ¬exclude.contains k)).find?
      (fun k => configGet config1 k ≠ configGet config2 k)
    |>.map (fun k => "different values for key " ++ k)

/-- Modelled from the spec: `db.StoragePoolNodeConfigKeys`, the fixed subset
of storage pool config keys that may differ per member (its source file
`lxd/db/storage_pools.go` is not under `src/`). -/
def StoragePoolNodeConfigKeys : List String :=
  ["size", "source", "volatile.initial_source", "zfs.pool_name"]

/-- A cluster-defined storage pool as the accept check reads it
(`cluster.GetCreatedStoragePoolNames` + `cluster.GetStoragePoolInAnyState`):
name, driver and config. The same shape serves for the pools submitted by the
joiner (`api.StoragePool`). -/
structure PoolRec where
  name : String
  driver : String
  config : Config
deriving DecidableEq, Repr

/-- A network as the accept check reads it (`cluster.GetCreatedNetworks` +
`cluster.GetNetworkInAnyState`) and as submitted by the joiner
(`api.Network`): name, type and config. -/
structure NetRec where
  name : String
  netType : String
  config : Config
deriving DecidableEq, Repr

/-- Embedding of `clusterCheckStoragePoolsMatch` from `lxd/api_cluster.go` lines 2215-2247:
for every created pool, the first submitted pool with the same name must have
the same driver and matching non-node-specific config; a created pool with no
submitted counterpart is an error naming the pool. -/
def clusterCheckStoragePoolsMatch (reqPools : List PoolRec) :
    List PoolRec → Option String
  | [] => none
  | pool :: rest =>
    match reqPools.find? (fun rp => rp.name = pool.name) with
    | none => some ("Missing storage pool " ++ pool.name)
    | some reqPool =>
      if pool.driver ≠ reqPool.driver then
        some ("Mismatching driver for storage pool " ++ pool.name)
      else
        match CompareConfigs pool.config reqPool.config StoragePoolNodeConfigKeys with
        | some e => some ("Mismatching config for storage pool " ++ pool.name ++ ": " ++ e)
        | none => clusterCheckStoragePoolsMatch reqPools rest

/-- Embedding of `clusterCheckNetworksMatch` from `lxd/api_cluster.go` lines 2249-2278:
for every created network, the first submitted network with the same name
must have matching non-node-specific config (the network type is not
compared); a created network with no submitted counterpart is an error naming
the network. -/
def clusterCheckNetworksMatch (reqNetworks : List NetRec) :
    List NetRec → Option String
  | [] => none
  | net :: rest =>
    match reqNetworks.find? (fun rn => rn.name = net.name) with
    | none => some ("Missing network " ++ net.name)
    | some reqNetwork =>
      match CompareConfigs net.config reqNetwork.config NodeSpecificNetworkConfig with
      | some e => some ("Mismatching config for network " ++ net.name ++ ": " ++ e)
      | none => clusterCheckNetworksMatch reqNetworks rest

/-- The resource-matching portion of `internalClusterPostAccept` (lines
1852-1866): under the membership mutex, run the storage pool check and then
the network check against the joiner's submitted resources, rejecting the
join on the first error. -/
def internalClusterPostAcceptChecks (createdPools : List PoolRec)
    (createdNetworks : List NetRec) (reqPools : List PoolRec)
    (reqNetworks : List NetRec) : Option String :=
  match clusterCheckStoragePoolsMatch reqPools createdPools with
  | some e => some e
  | none => clusterCheckNetworksMatch reqNetworks createdNetworks

/-! ### `lxd/api_cluster.go` — cluster certificate rotation -/

/-- A raft server as `clusterCertificatePut` iterates them
(`d.gateway.NodeStore().Get`), together with the combined outcome of
`cluster.Connect` + `client.UpdateClusterCertificate` against it. -/
structure CertPeer where
  address : String
  updateOk : Bool
deriving DecidableEq, Repr

/-- Input of `clusterCertificatePut`: validity of the two PEM blobs, whether
the request is a cluster notification, the raft servers with their update
outcomes, the local cluster address, and the outcomes of the local
`util.WriteCert` and `util.LoadClusterCert` calls. -/
structure CertPutInput where
  certValid : Bool
  keyValid : Bool
  isNotification : Bool
  servers : List CertPeer
  localAddress : String
  writeOk : Bool
  loadOk : Bool
deriving DecidableEq, Repr

/-- Outcome of `clusterCertificatePut`: the response error (if any), the
addresses of the peers whose certificate was successfully replaced by the
fan-out, and whether the local cluster certificate files were replaced. -/
structure CertPutOut where
  error : Option ApiError
  peersUpdated : List String
  localReplaced : Bool
deriving DecidableEq, Repr

/-- The sequential fan-out loop of `clusterCertificatePut`: servers are
updated in order, skipping the local address; the loop stops at the first
failing peer, leaving the peers before it updated. Returns the updated
addresses and the failing address, if any. -/
def certFanOut (self : String) : List CertPeer → List String × Option String
  | [] => ([], none)
  | peer :: rest =>
    if peer.address = self then
      certFanOut self rest
    else if peer.updateOk then
      let res := certFanOut self rest
      (peer.address :: res.1, res.2)
    else
      ([], some peer.address)

/-- Embedding of `clusterCertificatePut` from `lxd/api_cluster.go` lines 1741-1811:
validate both PEM blobs; when the request is not a cluster notification, send
the new certificate to every other raft server in order, aborting on the
first failure; only then write the local cluster certificate files and reload
the endpoints. -/
def clusterCertificatePut (inp : CertPutInput) : CertPutOut :=
  if ¬inp.certValid then
    ⟨some (.badRequest "Certificate must be base64 encoded PEM certificate"), [], false⟩
  else if ¬inp.keyValid then
    ⟨some (.badRequest "Private key must be base64 encoded PEM key"), [], false⟩
  else
    let fan := if inp.isNotification then ([], none) else certFanOut inp.localAddress inp.servers
    match fan.2 with
    | some addr => ⟨some (.smartError ("failed to notify peer " ++ addr)), fan.1, false⟩
    | none =>
      if ¬inp.writeOk then
        ⟨some (.smartError "failed to write cluster certificate"), fan.1, false⟩
      else if ¬inp.loadOk then
        ⟨some (.smartError "failed to load cluster certificate"), fan.1, true⟩
      else
        ⟨none, fan.1, true⟩

/-! ### `lxd/api_cluster.go` — member removal (`clusterNodeDelete`) -/

/-- Input of the leader-side part of `clusterNodeDelete` (lines 1614-1710):
the parsed `force` query value, the outcomes of the image sync, of
`cluster.Leave` (which yields the leaving member's address), of the two
`cluster.Connect` calls towards the leaving member, the per-resource outcomes
of the network and pool deletions on it, and the outcomes of the purge, of
`clusterPutDisable` (leader self-removal) and of the remote database reset. -/
structure DeleteInput where
  force : Nat
  syncImagesOk : Bool
  leaveOk : Bool
  leavingAddress : String
  localAddress : String
  connectLeavingOk : Bool
  networks : List (String × Bool)
  pools : List (String × Bool)
  purgeOk : Bool
  disableOk : Bool
  connectResetOk : Bool
  resetOk : Bool
deriving DecidableEq, Repr

/-- Outcome of the leader-side removal: the response error (if any), which
networks and pools were deleted on the leaving member, whether the handler
contacted the leaving member for resource deletion (step 4) or for the
database reset (step 7), whether the member row was purged, and whether the
leader disabled clustering on itself. -/
structure DeleteOut where
  error : Option ApiError
  networksDeleted : List String
  poolsDeleted : List String
  step4Attempted : Bool
  resetAttempted : Bool
  purged : Bool
  localDisabled : Bool
deriving DecidableEq, Repr

/-- A sequential deletion loop over named resources on the leaving member:
stops at the first failure, returning the successfully deleted names and the
failing name, if any. -/
def deleteEach : List (String × Bool) → List String × Option String
  | [] => ([], none)
  | (n, ok) :: rest =>
    if ok then
      let res := deleteEach rest
      (n :: res.1, res.2)
    else
      ([], some n)

/-- The leader-side body of `clusterNodeDelete` from `lxd/api_cluster.go`
lines 1614-1710, after redirect handling and the 2-node promotion special
case: sync images (fatal only when `force == 0`), make the member leave the
raft cluster, then — only when `force != 1` — connect to the leaving member
and delete each of its networks and storage pools (step 4), purge the member
row, rebalance (failure is only a warning), and finally either disable
clustering locally (when the leader removed itself) or — only when
`force != 1` — instruct the remote leaving member to reset its database to
standalone (step 7). -/
def clusterNodeDeleteCore (inp : DeleteInput) : DeleteOut :=
  if ¬inp.syncImagesOk ∧ inp.force = 0 then
    ⟨some (.smartError "Failed to sync images"), [], [], false, false, false, false⟩
  else if ¬inp.leaveOk then
    ⟨some (.smartError "Failed to leave the cluster"), [], [], false, false, false, false⟩
  else
    let step4 : Option ApiError × List String × List String × Bool :=
      if inp.force ≠ 1 then
        if ¬inp.connectLeavingOk then
          (some (.smartError "Failed to connect to leaving member"), [], [], true)
        else
          let nets := deleteEach inp.networks
          match nets.2 with
          | some n => (some (.smartError ("Failed to delete network " ++ n)), nets.1, [], true)
          | none =>
            let pls := deleteEach inp.pools
            match pls.2 with
            | some p => (some (.smartError ("Failed to delete storage pool " ++ p)), nets.1, pls.1, true)
            | none => (none, nets.1, pls.1, true)
      else
        (none, [], [], false)
    match step4.1 with
    | some e => ⟨some e, step4.2.1, step4.2.2.1, step4.2.2.2, false, false, false⟩
    | none =>
      if ¬inp.purgeOk then
        ⟨some (.smartError "Failed to remove member from database"), step4.2.1, step4.2.2.1,
          step4.2.2.2, false, false, false⟩
      else if inp.leavingAddress = inp.localAddress then
        ⟨if inp.disableOk then none else some (.smartError "Failed to disable clustering"),
          step4.2.1, step4.2.2.1, step4.2.2.2, false, true, true⟩
      else if inp.force ≠ 1 then
        if ¬inp.connectResetOk then
          ⟨some (.smartError "Failed to connect to leaving member"), step4.2.1, step4.2.2.1,
            step4.2.2.2, true, true, false⟩
        else if ¬inp.resetOk then
          ⟨some (.smartError "Failed to cleanup the member"), step4.2.1, step4.2.2.1,
            step4.2.2.2, true, true, false⟩
        else
          ⟨none, step4.2.1, step4.2.2.1, step4.2.2.2, true, true, false⟩
      else
        ⟨none, step4.2.1, step4.2.2.1, step4.2.2.2, false, true, false⟩

/-! ### `lxd/networks.go` — clustered network creation -/

/-- An `api.Network` record as `networksPost` loads it
(`cluster.GetNetworkInAnyState`): name, type, status and the config visible
from the local member (node-specific plus global keys). The API status string
corresponds to the DB state through `NetworkStateToAPIStatus`. -/
structure ApiNetworkInfo where
  name : String
  netType : String
  status : NetworkState
  config : Config
deriving DecidableEq, Repr

/-- Embedding of `networkPartiallyCreated` from `lxd/networks.go` lines 425-441: a network
is partially created when its status is errored, or when its config already
holds a global (non-node-specific) key. -/
def networkPartiallyCreated (netInfo : ApiNetworkInfo) : Bool :=
  netInfo.status == .errored ||
    netInfo.config.any (fun kv => !(NodeSpecificNetworkConfig.contains kv.1))

/-- Input of `networksPostCluster`: the optional existing network record, the
request's type and config, and the outcomes of the fallible steps — the
node-config fetch inside the transaction (`NetworkNodeConfigs`), the config
fill, the global-config insert, the notifier construction,
`network.LoadByName`, the local `doNetworksCreate`, the per-peer
`CreateNetwork` calls, and the final `NetworkCreated` transaction. -/
structure NetCreateInput where
  netInfo : Option ApiNetworkInfo
  reqType : String
  reqConfig : Config
  nodeConfigsOk : Bool
  fillOk : Bool
  insertOk : Bool
  notifierOk : Bool
  loadOk : Bool
  localCreateOk : Bool
  peerOks : List Bool
  finalTxOk : Bool
deriving DecidableEq, Repr

/-- The tail of `networksPostCluster` after the global-config transaction
(lines 515-581): build the notifier, load the network, create it locally,
notify every other member to create it, and only when every step succeeded
mark the network created. `st` is the network row state left by the
transaction; every failure leaves it unchanged. -/
def netCreateFinish (inp : NetCreateInput) (st : Option NetworkState) :
    Option String × Option NetworkState :=
  if ¬inp.notifierOk then
    (some "Failed to create notifier", st)
  else if ¬inp.loadOk then
    (some "Failed to load network", st)
  else if ¬inp.localCreateOk then
    (some "Failed to create network on local cluster member", st)
  else if ¬inp.peerOks.all id then
    (some "failed to notify peer", st)
  else if ¬inp.finalTxOk then
    (some "Failed to mark network created", st)
  else
    (none, some .created)

/-- The global-config transaction of `networksPostCluster` (lines 469-513)
followed by the remaining steps, for a network that is not partially created:
`GetNetworkID` fails when the row is absent ("not pending on any node"),
then the node configs are fetched and checked, the default config filled in,
the global config inserted and the network atomically marked errored
("assume failure unless we succeed later on"), and the remaining steps run
`netCreateFinish` from that errored state. -/
def netCreateTx (inp : NetCreateInput) (rowState : Option NetworkState) :
    Option String × Option NetworkState :=
  match rowState with
  | none => (some "Network not pending on any node (use --target <node> first)", none)
  | some _ =>
    if ¬inp.nodeConfigsOk then
      (some "Network not defined on nodes", rowState)
    else if ¬inp.fillOk then
      (some "Failed to fill config", rowState)
    else if ¬inp.insertOk then
      (some "Failed to insert global config", rowState)
    else
      netCreateFinish inp (some .errored)

/-- Embedding of `networksPostCluster` from `lxd/networks.go` lines 446-582. `rowState` is
the state of the network's row in the `networks` table (`none` when the row
does not exist, in which case `GetNetworkID` fails with `ErrNoSuchObject`).
The function returns the response error (if any) and the row state
afterwards: the checks reject node-specific request keys, an
already-created network and a type mismatch; the transaction inserts the
global config and atomically marks the network errored (skipped on a
partially-created re-run, which must carry no global config); the remaining
steps run `netCreateFinish`. -/
def networksPostCluster (inp : NetCreateInput) (rowState : Option NetworkState) :
    Option String × Option NetworkState :=
  if inp.reqConfig.any (fun kv => NodeSpecificNetworkConfig.contains kv.1) then
    (some "Config key is node-specific", rowState)
  else
    match inp.netInfo with
    | some i =>
      if i.status = .created then
        (some "The network is already created", rowState)
      else if inp.reqType ≠ i.netType then
        (some "Requested network type doesn't match type in existing database record", rowState)
      else if networkPartiallyCreated i then
        if inp.reqConfig ≠ [] then
          (some "Network already partially created. Please do not specify any global config when re-running create", rowState)
        else
          netCreateFinish inp rowState
      else
        netCreateTx inp rowState
    | none =>
      netCreateTx inp rowState

/-- Input of the `networksPost` handler beyond `NetCreateInput`: the member
count, whether the network type supports node-specific config, whether the
request comes from a joining member, the outcome of the pending-entry
simulation transaction, and the outcome of the non-clustered database
insert. -/
structure NetPostInput where
  create : NetCreateInput
  count : Nat
  nodeSpecificSupport : Bool
  isJoiner : Bool
  pendingOk : Bool
  createDbOk : Bool
deriving DecidableEq, Repr

/-- The `networksPost` handler from `lxd/networks.go` lines 331-421 (after
parsing, for a non-notification request without a target): reject a network
in errored state outright ("please delete and re-create"); otherwise, when
clustered (or finishing a partially defined network), optionally simulate the
pending entries and run `networksPostCluster`; otherwise perform the
single-member create, whose database record is inserted directly in state
created and removed again if the local create fails. -/
def networksPost (p : NetPostInput) : Option String × Option NetworkState :=
  let st0 : Option NetworkState := p.create.netInfo.map ApiNetworkInfo.status
  match p.create.netInfo with
  | some i =>
    if i.status = .errored then
      (some "Network is in errored state, please delete and re-create", st0)
    else if 1 < p.count ∨ i.status ≠ .created then
      if ¬p.nodeSpecificSupport ∧ ¬p.isJoiner then
        if ¬p.pendingOk then
          (some "Failed creating pending network", st0)
        else
          networksPostCluster p.create st0
      else
        networksPostCluster p.create st0
    else
      (some "The network already exists", st0)
  | none =>
    if 1 < p.count then
      if ¬p.nodeSpecificSupport ∧ ¬p.isJoiner then
        if ¬p.pendingOk then
          (some "Failed creating pending network", none)
        else
          networksPostCluster p.create (some .pending)
      else
        networksPostCluster p.create none
    else if ¬p.createDbOk then
      (some "Error inserting into database", none)
    else if ¬p.create.loadOk then
      (some "Failed to load network", none)
    else if ¬p.create.localCreateOk then
      (some "Failed to create network", none)
    else
      (none, some .created)

/-- Modelled from the spec: the storage-pool create handler
(`storagePoolsPost` in `lxd/storage_pools.go`, whose source is not under
`src/`; only its accept-check caller is). Per the spec, storage pools follow
the same pending/created/errored state machine as networks and "any failure
moves it to errored (terminal — requires delete/recreate)": a create attempt
against a pool in state errored is rejected, requiring delete and re-create,
and leaves the state errored; otherwise the pool becomes created only when
every member's local create succeeded, and any member failure moves it to
errored. -/
def storagePoolsPost (poolState : Option NetworkState) (membersOk : List Bool) :
    Option String × Option NetworkState :=
  match poolState with
  | some NetworkState.errored =>
    (some "Storage pool is in errored state, please delete and re-create",
      some NetworkState.errored)
  | some NetworkState.created =>
    (some "The storage pool already exists", some NetworkState.created)
  | _ =>
    if membersOk.all id then
      (none, some NetworkState.created)
    else
      (some "Failed to create storage pool on a cluster member",
        some NetworkState.errored)

/-! ## Theorems -/

/-- C9: `CreateFirstRaftNode(address, name)` always produces a raft-node row
with id 1 holding the given address and name: the upsert forces id 1,
replacing any existing row with that id, and the function succeeds with the
resulting row id equal to 1 (the guard returning an error for a different
resulting id can therefore never fire). -/
theorem CreateFirstRaftNode_forces_id_one (rows : List RaftRow) (address name : String) :
    ∃ rows', CreateFirstRaftNode rows address name = .ok rows' ∧
      (⟨1, address, name⟩ : RaftRow) ∈ rows' ∧
      ∀ r ∈ rows', r.id = 1 → r = ⟨1, address, name⟩ := by
  refine ⟨rows.filter (fun r => r.id ≠ 1) ++ [⟨1, address, name⟩], ?_, ?_, ?_⟩
  · simp [CreateFirstRaftNode, upsertRaftRow]
  · simp
  · intro r hr hid
    rcases List.mem_append.mp hr with hmem | hmem
    · exact absurd hid (by simpa using (List.mem_filter.mp hmem).2)
    · simpa using hmem

/-- C10: `CreatePendingNetwork` accepts only the bridge network type: any
other type value is rejected with an "Unsupported network type" error before
any table is touched (the error return carries no updated database). -/
theorem CreatePendingNetwork_rejects_non_bridge (db : NetDB) (node name : String)
    (netType : Nat) (conf : Config) (h : netType ≠ NetworkTypeBridge) :
    CreatePendingNetwork db node name netType conf =
      .error ("Unsupported network type: " ++ toString netType) := by
  simp [CreatePendingNetwork, h]

/-- Witness for C10 at the concrete non-bridge type value 1 on an empty
database. -/
theorem CreatePendingNetwork_rejects_non_bridge_witness :
    CreatePendingNetwork ⟨[], [], [], []⟩ "node1" "net1" 1 [] =
      .error "Unsupported network type: 1" :=
  CreatePendingNetwork_rejects_non_bridge ⟨[], [], [], []⟩ "node1" "net1" 1 [] (by decide)

/-- C8: a `PUT` or `PATCH /cluster/members/{name}` request that drops the
`database` role from a member holding it, or adds it to a member not holding
it, is rejected with a BadRequest error by both handlers; no updated member
state is produced. -/
theorem clusterNodePut_rejects_database_role_change (member : MemberState)
    (req : MemberPutReq)
    (h : (ClusterRoleDatabase ∈ member.roles ∧ ClusterRoleDatabase ∉ req.roles) ∨
         (ClusterRoleDatabase ∉ member.roles ∧ ClusterRoleDatabase ∈ req.roles)) :
    (∃ msg, clusterNodePut member true req = .error (.badRequest msg)) ∧
    (∃ msg, clusterNodePatch member true req = .error (.badRequest msg)) := by
  rcases h with ⟨h1, h2⟩ | ⟨h1, h2⟩ <;>
    simp [clusterNodePut, clusterNodePatch, h1, h2]

/-- Witness for C8: dropping the `database` role from a member that holds it
is rejected. -/
theorem clusterNodePut_rejects_database_role_change_witness :
    (∃ msg, clusterNodePut ⟨"", ["database"]⟩ true ⟨"", []⟩ = .error (.badRequest msg)) ∧
    (∃ msg, clusterNodePatch ⟨"", ["database"]⟩ true ⟨"", []⟩ = .error (.badRequest msg)) :=
  clusterNodePut_rejects_database_role_change ⟨"", ["database"]⟩ ⟨"", []⟩
    (Or.inl ⟨by decide, by decide⟩)

/-- C5 counterexample: under the `TryAll` policy a failed peer does not
produce a mere warning — the notifier returns the error (here a connection
error against a single selected peer). -/
theorem notifyErrors_tryAll_failure_fatal :
    notifyErrors NotifierPolicy.tryAll
      [some ⟨"dial tcp: connection refused", true⟩] ≠ none := by
  simp [notifyErrors]

/-- C5 amended: the notifier returns no error exactly when every selected
peer either succeeded or failed with a connection error while the policy is
`Alive` (in which case the failure is only logged as a warning); every other
failure — a non-connection error under `Alive`, or any failure under `All`
or `TryAll` — makes notify return the error. -/
theorem notifyErrors_none_iff (policy : NotifierPolicy)
    (results : List (Option PeerError)) :
    notifyErrors policy results = none ↔
      ∀ e : PeerError, some e ∈ results →
        e.isConnection = true ∧ policy = .alive := by
  induction results with
  | nil => simp [notifyErrors]
  | cons r rest ih =>
    cases r with
    | none => simpa [notifyErrors] using ih
    | some e =>
      by_cases hc : e.isConnection = true ∧ policy = .alive
      · simp only [notifyErrors, if_pos hc]
        rw [ih]
        constructor
        · intro h e2 he2
          rcases List.mem_cons.mp he2 with h1 | h1
          · obtain rfl : e2 = e := by injection h1
            exact hc
          · exact h e2 h1
        · intro h e2 he2
          exact h e2 (List.mem_cons_of_mem _ he2)
      · simp only [notifyErrors, if_neg hc]
        constructor
        · intro h; simp at h
        · intro h
          exact absurd (h e (List.mem_cons_self _ _)) hc

/-- C6: the errored state of a replicated resource is terminal under the
create paths of both resource kinds: the `networksPost` handler rejects any
create attempt against a network whose status is errored ("please delete and
re-create") and leaves its state errored — and this handler path is the only
caller of `NetworkCreated` — and the storage-pool create handler (modelled
from the spec, its source being absent from `src/`) likewise rejects a create
attempt against an errored pool and leaves its state errored regardless of
the members' outcomes; for both, the only recovery is deleting the resource
and recreating it. -/
theorem erroredResourceState_terminal (p : NetPostInput) (i : ApiNetworkInfo)
    (hi : p.create.netInfo = some i) (hst : i.status = .errored)
    (membersOk : List Bool) :
    networksPost p =
      (some "Network is in errored state, please delete and re-create",
        some .errored) ∧
    storagePoolsPost (some .errored) membersOk =
      (some "Storage pool is in errored state, please delete and re-create",
        some .errored) := by
  constructor
  · simp [networksPost, hi, hst]
  · rfl

/-- Witness for C6: a concrete errored bridge network and a concrete errored
storage pool are both rejected with their state left errored, even though
every member would report success. -/
theorem erroredResourceState_terminal_witness :
    networksPost
      { create :=
        { netInfo := some ⟨"n1", "bridge", .errored, []⟩
          reqType := "bridge", reqConfig := [], nodeConfigsOk := true
          fillOk := true, insertOk := true, notifierOk := true, loadOk := true
          localCreateOk := true, peerOks := [true], finalTxOk := true }
        count := 3, nodeSpecificSupport := true, isJoiner := false
        pendingOk := true, createDbOk := true } =
      (some "Network is in errored state, please delete and re-create",
        some .errored) ∧
    storagePoolsPost (some .errored) [true, true] =
      (some "Storage pool is in errored state, please delete and re-create",
        some .errored) :=
  erroredResourceState_terminal _ ⟨"n1", "bridge", .errored, []⟩ rfl rfl [true, true]

/-- After the cancellation loop, no operation of the old table is still a
running join token for the requested server name. -/
theorem cancelMatchingTokenOps_no_active (reqName : String) (ops : List TokenOp) :
    ∀ op ∈ cancelMatchingTokenOps reqName ops,
      ¬(op.status = .running ∧ op.serverName = some reqName) := by
  intro op hop
  rcases List.mem_map.mp hop with ⟨a, _, rfl⟩
  by_cases h : a.status = .running ∧ a.serverName = some reqName
  · rw [if_pos h]; simp
  · rw [if_neg h]; exact h

/-- C4: after a successful join-token issuance for a server name, the
operation table holds exactly one running join-token operation recorded for
that name — the newly created one; every previously running operation for
the name was cancelled before the new operation was created, and issuance is
serialized by `clusterNodesPostMu`. -/
theorem clusterNodesPostTokens_at_most_one_active (reqName newId : String)
    (cancelOk : Bool) (ops res : List TokenOp)
    (h : clusterNodesPostTokens reqName newId cancelOk ops = .ok res) :
    res.countP (fun op => decide (op.status = .running ∧ op.serverName = some reqName)) = 1 ∧
    ∀ op ∈ res, op.status = .running → op.serverName = some reqName →
      op = ⟨newId, .running, some reqName⟩ := by
  have hres : res = cancelMatchingTokenOps reqName ops ++ [⟨newId, .running, some reqName⟩] := by
    unfold clusterNodesPostTokens at h
    split at h
    · cases h
    · exact (Except.ok.inj h).symm
  subst hres
  constructor
  · rw [List.countP_append]
    have h0 : (cancelMatchingTokenOps reqName ops).countP
        (fun op => decide (op.status = .running ∧ op.serverName = some reqName)) = 0 := by
      refine List.countP_eq_zero.mpr ?_
      intro op hop
      simpa using cancelMatchingTokenOps_no_active reqName ops op hop
    rw [h0]
    simp
  · intro op hop h1 h2
    rcases List.mem_append.mp hop with hmem | hmem
    · exact absurd ⟨h1, h2⟩ (cancelMatchingTokenOps_no_active reqName ops op hmem)
    · simpa using hmem

/-- Witness for C4: issuing a token for "b" while a running token for "b" and
one for "c" exist leaves exactly one running token for "b". -/
theorem clusterNodesPostTokens_at_most_one_active_witness :
    List.countP
      (fun op => decide (op.status = .running ∧ op.serverName = some "b"))
      (cancelMatchingTokenOps "b"
          [⟨"op1", .running, some "b"⟩, ⟨"op2", .running, some "c"⟩] ++
        ([⟨"op3", .running, some "b"⟩] : List TokenOp)) = 1 :=
  (clusterNodesPostTokens_at_most_one_active "b" "op3" true
    [⟨"op1", .running, some "b"⟩, ⟨"op2", .running, some "c"⟩] _ rfl).1

/-- C2 counterexample: the accept checks pass a joiner whose submitted
network has the same name and config as the cluster's created network but a
different type ("macvlan" against the cluster's "bridge"), because
`clusterCheckNetworksMatch` never compares the network driver; so the claim
that the handler verifies a matching driver for each network is false. -/
theorem acceptChecks_ignore_network_driver :
    internalClusterPostAcceptChecks [] [⟨"n1", "bridge", []⟩] []
        [⟨"n1", "macvlan", []⟩] = none ∧
      ("bridge" : String) ≠ "macvlan" := by
  constructor
  · rfl
  · decide

/-- Soundness of the pool check: when it reports no error, every created pool
has a submitted pool of the same name (the first such entry) with the same
driver and matching non-node-specific config. -/
theorem clusterCheckStoragePoolsMatch_sound (reqPools : List PoolRec) :
    ∀ created : List PoolRec, clusterCheckStoragePoolsMatch reqPools created = none →
      ∀ pool ∈ created,
        ∃ rp, reqPools.find? (fun x => x.name = pool.name) = some rp ∧
          rp.driver = pool.driver ∧
          CompareConfigs pool.config rp.config StoragePoolNodeConfigKeys = none := by
  intro created
  induction created with
  | nil => intro _ p hp; cases hp
  | cons pool rest ih =>
    intro h p hp
    unfold clusterCheckStoragePoolsMatch at h
    cases hfind : reqPools.find? (fun x => decide (x.name = pool.name)) with
    | none => simp [hfind] at h
    | some rp =>
      simp only [hfind] at h
      by_cases hdrv : pool.driver ≠ rp.driver
      · rw [if_pos hdrv] at h; cases h
      · rw [if_neg hdrv] at h
        push_neg at hdrv
        cases hcc : CompareConfigs pool.config rp.config StoragePoolNodeConfigKeys with
        | some e => simp [hcc] at h
        | none =>
          simp only [hcc] at h
          rcases List.mem_cons.mp hp with rfl | hmem
          · exact ⟨rp, hfind, hdrv.symm, hcc⟩
          · exact ih h p hmem

/-- Soundness of the network check: when it reports no error, every created
network has a submitted network of the same name (the first such entry) with
matching non-node-specific config; nothing relates their types. -/
theorem clusterCheckNetworksMatch_sound (reqNetworks : List NetRec) :
    ∀ created : List NetRec, clusterCheckNetworksMatch reqNetworks created = none →
      ∀ net ∈ created,
        ∃ rn, reqNetworks.find? (fun x => x.name = net.name) = some rn ∧
          CompareConfigs net.config rn.config NodeSpecificNetworkConfig = none := by
  intro created
  induction created with
  | nil => intro _ n hn; cases hn
  | cons net rest ih =>
    intro h n hn
    unfold clusterCheckNetworksMatch at h
    cases hfind : reqNetworks.find? (fun x => decide (x.name = net.name)) with
    | none => simp [hfind] at h
    | some rn =>
      simp only [hfind] at h
      cases hcc : CompareConfigs net.config rn.config NodeSpecificNetworkConfig with
      | some e => simp [hcc] at h
      | none =>
        simp only [hcc] at h
        rcases List.mem_cons.mp hn with rfl | hmem
        · exact ⟨rn, hfind, hcc⟩
        · exact ih h n hmem

/-- C2 amended: for every join request that passes the leader-side accept
checks, each cluster-defined storage pool is present in the joiner's
submitted set with a matching driver and matching non-node-specific config,
and each cluster-defined network is present with matching non-node-specific
config — the network driver is not compared; any failed check rejects the
join with an error naming the offending resource. -/
theorem internalClusterPostAcceptChecks_sound (createdPools : List PoolRec)
    (createdNetworks : List NetRec) (reqPools : List PoolRec)
    (reqNetworks : List NetRec)
    (h : internalClusterPostAcceptChecks createdPools createdNetworks
      reqPools reqNetworks = none) :
    (∀ pool ∈ createdPools,
      ∃ rp, reqPools.find? (fun x => x.name = pool.name) = some rp ∧
        rp.driver = pool.driver ∧
        CompareConfigs pool.config rp.config StoragePoolNodeConfigKeys = none) ∧
    (∀ net ∈ createdNetworks,
      ∃ rn, reqNetworks.find? (fun x => x.name = net.name) = some rn ∧
        CompareConfigs net.config rn.config NodeSpecificNetworkConfig = none) := by
  unfold internalClusterPostAcceptChecks at h
  cases hp : clusterCheckStoragePoolsMatch reqPools createdPools with
  | some e => rw [hp] at h; cases h
  | none =>
    rw [hp] at h
    exact ⟨clusterCheckStoragePoolsMatch_sound reqPools createdPools hp,
      clusterCheckNetworksMatch_sound reqNetworks createdNetworks h⟩

/-- Witness for the amended C2 at a concrete matching pool and network. -/
theorem internalClusterPostAcceptChecks_sound_witness :
    ∃ rp, List.find? (fun x => x.name = "p1") [(⟨"p1", "dir", [("rsync.bwlimit", "100")]⟩ : PoolRec)] = some rp ∧
      rp.driver = "dir" ∧
      CompareConfigs [("rsync.bwlimit", "100")] rp.config StoragePoolNodeConfigKeys = none :=
  (internalClusterPostAcceptChecks_sound
      [⟨"p1", "dir", [("rsync.bwlimit", "100")]⟩] [⟨"n1", "bridge", []⟩]
      [⟨"p1", "dir", [("rsync.bwlimit", "100")]⟩] [⟨"n1", "bridge", []⟩]
      rfl).1 ⟨"p1", "dir", [("rsync.bwlimit", "100")]⟩ (by simp)

/-- C3 counterexample: with two other members of which the second rejects the
update, the rotation fails and the local certificate is untouched, but the
first peer has already installed the new certificate — so the old certificate
does not remain active on all members. -/
theorem clusterCertificatePut_partial_rotation :
    (clusterCertificatePut
        ⟨true, true, false, [⟨"10.0.0.2", true⟩, ⟨"10.0.0.3", false⟩],
          "10.0.0.1", true, true⟩).error ≠ none ∧
    (clusterCertificatePut
        ⟨true, true, false, [⟨"10.0.0.2", true⟩, ⟨"10.0.0.3", false⟩],
          "10.0.0.1", true, true⟩).localReplaced = false ∧
    (clusterCertificatePut
        ⟨true, true, false, [⟨"10.0.0.2", true⟩, ⟨"10.0.0.3", false⟩],
          "10.0.0.1", true, true⟩).peersUpdated = ["10.0.0.2"] := by
  refine ⟨?_, rfl, rfl⟩
  simp [clusterCertificatePut, certFanOut]

/-- When the sequential certificate fan-out finishes without a failure, every
server other than the local one was updated. -/
theorem certFanOut_complete (self : String) :
    ∀ peers : List CertPeer, (certFanOut self peers).2 = none →
      ∀ p ∈ peers, p.address ≠ self →
        p.updateOk = true ∧ p.address ∈ (certFanOut self peers).1 := by
  intro peers
  induction peers with
  | nil => intro _ p hp; cases hp
  | cons peer rest ih =>
    intro h p hp hpself
    by_cases hself : peer.address = self
    · rw [certFanOut, if_pos hself] at h ⊢
      rcases List.mem_cons.mp hp with rfl | hmem
      · exact absurd hself hpself
      · exact ih h p hmem hpself
    · by_cases hok : peer.updateOk
      · rw [certFanOut, if_neg hself, if_pos hok] at h ⊢
        rcases List.mem_cons.mp hp with rfl | hmem
        · exact ⟨hok, List.mem_cons_self _ _⟩
        · obtain ⟨h1, h2⟩ := ih h p hmem hpself
          exact ⟨h1, List.mem_cons_of_mem _ h2⟩
      · rw [certFanOut, if_neg hself, if_neg hok] at h
        cases h

/-- C3 amended: for a non-notification certificate rotation with valid PEM
blobs, the fan-out to the other members runs before any local file is
written: if some peer update fails, the handler returns an error and the
local cluster certificate is not replaced (though peers updated before the
failure keep the new certificate and are not rolled back); if the handler
succeeds, every other member was updated and the local certificate was
replaced. -/
theorem clusterCertificatePut_fanout_before_local (inp : CertPutInput)
    (hc : inp.certValid = true) (hk : inp.keyValid = true)
    (hn : inp.isNotification = false) :
    ((certFanOut inp.localAddress inp.servers).2 ≠ none →
      (clusterCertificatePut inp).error ≠ none ∧
      (clusterCertificatePut inp).localReplaced = false) ∧
    ((clusterCertificatePut inp).error = none →
      (clusterCertificatePut inp).localReplaced = true ∧
      ∀ p ∈ inp.servers, p.address ≠ inp.localAddress →
        p.updateOk = true ∧ p.address ∈ (clusterCertificatePut inp).peersUpdated) := by
  have hput : clusterCertificatePut inp =
      (match (certFanOut inp.localAddress inp.servers).2 with
      | some addr =>
        ⟨some (.smartError ("failed to notify peer " ++ addr)),
          (certFanOut inp.localAddress inp.servers).1, false⟩
      | none =>
        if ¬inp.writeOk then
          ⟨some (.smartError "failed to write cluster certificate"),
            (certFanOut inp.localAddress inp.servers).1, false⟩
        else if ¬inp.loadOk then
          ⟨some (.smartError "failed to load cluster certificate"),
            (certFanOut inp.localAddress inp.servers).1, true⟩
        else
          ⟨none, (certFanOut inp.localAddress inp.servers).1, true⟩) := by
    simp [clusterCertificatePut, hc, hk, hn]
  cases hfan : (certFanOut inp.localAddress inp.servers).2 with
  | some addr =>
    rw [hfan] at hput
    constructor
    · intro _
      rw [hput]
      exact ⟨by simp, rfl⟩
    · intro he
      rw [hput] at he
      simp at he
  | none =>
    rw [hfan] at hput
    constructor
    · intro hcontra; exact absurd rfl hcontra
    · intro he
      by_cases hw : inp.writeOk
      · by_cases hl : inp.loadOk
        · rw [hput]
          simp only [hw, hl]
          refine ⟨by simp, ?_⟩
          intro p hp hpself
          obtain ⟨h1, h2⟩ := certFanOut_complete inp.localAddress inp.servers hfan p hp hpself
          exact ⟨h1, by simpa using h2⟩
        · rw [hput] at he; simp [hw, hl] at he
      · rw [hput] at he; simp [hw] at he

/-- Witness for the amended C3: with one reachable peer and all steps
succeeding, the rotation replaces the local certificate. -/
theorem clusterCertificatePut_fanout_before_local_witness :
    (clusterCertificatePut
        ⟨true, true, false, [⟨"10.0.0.2", true⟩], "10.0.0.1", true, true⟩).localReplaced = true :=
  ((clusterCertificatePut_fanout_before_local
      ⟨true, true, false, [⟨"10.0.0.2", true⟩], "10.0.0.1", true, true⟩
      rfl rfl rfl).2 (by decide)).1

/-- When the sequential deletion loop reports no failure, every resource was
deleted (in order) and every per-resource RPC succeeded. -/
theorem deleteEach_complete :
    ∀ l : List (String × Bool), (deleteEach l).2 = none →
      (deleteEach l).1 = l.map Prod.fst ∧ ∀ x ∈ l, x.2 = true := by
  intro l
  induction l with
  | nil => intro _; exact ⟨rfl, by intro x hx; cases hx⟩
  | cons nb rest ih =>
    intro h
    by_cases hok : nb.2
    · rw [deleteEach, if_pos hok] at h ⊢
      obtain ⟨h1, h2⟩ := ih h
      refine ⟨by simp [h1], ?_⟩
      intro x hx
      rcases List.mem_cons.mp hx with rfl | hmem
      · exact hok
      · exact h2 x hmem
    · rw [deleteEach, if_neg hok] at h
      cases h

/-- C7: a forced member removal contacts the leaving member neither to delete
its local networks and storage pools (step 4) nor to reset its database to
standalone (step 7); a non-forced removal that succeeds performed step 4 —
deleting every network and pool on the leaving member — and, when the leaving
member is remote, step 7, and its success implies that none of those RPCs
failed (any failure would have aborted the handler with an error). -/
theorem clusterNodeDelete_force_semantics (inp : DeleteInput) :
    (inp.force = 1 →
      (clusterNodeDeleteCore inp).step4Attempted = false ∧
      (clusterNodeDeleteCore inp).resetAttempted = false ∧
      (clusterNodeDeleteCore inp).networksDeleted = [] ∧
      (clusterNodeDeleteCore inp).poolsDeleted = []) ∧
    (inp.force = 0 → (clusterNodeDeleteCore inp).error = none →
      (clusterNodeDeleteCore inp).step4Attempted = true ∧
      (clusterNodeDeleteCore inp).networksDeleted = inp.networks.map Prod.fst ∧
      (clusterNodeDeleteCore inp).poolsDeleted = inp.pools.map Prod.fst ∧
      (∀ nb ∈ inp.networks, nb.2 = true) ∧ (∀ pb ∈ inp.pools, pb.2 = true) ∧
      (inp.leavingAddress ≠ inp.localAddress →
        (clusterNodeDeleteCore inp).resetAttempted = true ∧
        inp.connectResetOk = true ∧ inp.resetOk = true)) := by
  constructor
  · intro hf
    by_cases hs : inp.syncImagesOk <;>
      by_cases hl : inp.leaveOk <;>
        by_cases hp : inp.purgeOk <;>
          by_cases ha : inp.leavingAddress = inp.localAddress <;>
            by_cases hd : inp.disableOk <;>
              simp [clusterNodeDeleteCore, hf, hs, hl, hp, ha, hd]
  · intro hf he
    by_cases hs : inp.syncImagesOk
    all_goals by_cases hl : inp.leaveOk
    all_goals try (exfalso; simp [clusterNodeDeleteCore, hf, hs, hl] at he; done)
    by_cases hcon : inp.connectLeavingOk
    · cases hnets : (deleteEach inp.networks).2 with
      | some n =>
        exfalso
        simp [clusterNodeDeleteCore, hf, hs, hl, hcon, hnets] at he
      | none =>
        cases hpools : (deleteEach inp.pools).2 with
        | some p =>
          exfalso
          simp [clusterNodeDeleteCore, hf, hs, hl, hcon, hnets, hpools] at he
        | none =>
          obtain ⟨hn1, hn2⟩ := deleteEach_complete inp.networks hnets
          obtain ⟨hp1, hp2⟩ := deleteEach_complete inp.pools hpools
          by_cases hp : inp.purgeOk
          · by_cases ha : inp.leavingAddress = inp.localAddress
            · have hcore : clusterNodeDeleteCore inp =
                  ⟨if inp.disableOk then none
                    else some (.smartError "Failed to disable clustering"),
                    (deleteEach inp.networks).1, (deleteEach inp.pools).1,
                    true, false, true, true⟩ := by
                simp [clusterNodeDeleteCore, hf, hs, hl, hcon, hnets, hpools, hp, ha]
              rw [hcore]
              exact ⟨rfl, hn1, hp1, hn2, hp2, fun hcontra => absurd ha hcontra⟩
            · by_cases hcr : inp.connectResetOk
              · by_cases hr : inp.resetOk
                · have hcore : clusterNodeDeleteCore inp =
                      ⟨none, (deleteEach inp.networks).1, (deleteEach inp.pools).1,
                        true, true, true, false⟩ := by
                    simp [clusterNodeDeleteCore, hf, hs, hl, hcon, hnets, hpools, hp, ha, hcr, hr]
                  rw [hcore]
                  exact ⟨rfl, hn1, hp1, hn2, hp2, fun _ => ⟨rfl, hcr, hr⟩⟩
                · exfalso
                  simp [clusterNodeDeleteCore, hf, hs, hl, hcon, hnets, hpools, hp, ha, hcr, hr] at he
              · exfalso
                simp [clusterNodeDeleteCore, hf, hs, hl, hcon, hnets, hpools, hp, ha, hcr] at he
          · exfalso
            simp [clusterNodeDeleteCore, hf, hs, hl, hcon, hnets, hpools, hp] at he
    · exfalso
      simp [clusterNodeDeleteCore, hf, hs, hl, hcon] at he

/-- Witness for C7: forced removal performs no step-4 deletion, and a
successful graceful removal of a remote member deletes its network "n1" and
resets its database. -/
theorem clusterNodeDelete_force_semantics_witness :
    (clusterNodeDeleteCore
        ⟨1, true, true, "10.0.0.2", "10.0.0.1", true, [("n1", true)],
          [("p1", true)], true, true, true, true⟩).step4Attempted = false ∧
    (clusterNodeDeleteCore
        ⟨0, true, true, "10.0.0.2", "10.0.0.1", true, [("n1", true)],
          [("p1", true)], true, true, true, true⟩).networksDeleted = ["n1"] ∧
    (clusterNodeDeleteCore
        ⟨0, true, true, "10.0.0.2", "10.0.0.1", true, [("n1", true)],
          [("p1", true)], true, true, true, true⟩).resetAttempted = true := by
  refine ⟨((clusterNodeDelete_force_semantics _).1 rfl).1, ?_, ?_⟩
  · exact ((clusterNodeDelete_force_semantics _).2 rfl (by decide)).2.1
  · exact (((clusterNodeDelete_force_semantics _).2 rfl (by decide)).2.2.2.2.2 (by decide)).1

/-- Behaviour of the post-transaction tail of `networksPostCluster`: it
returns no error exactly when it ends with the network marked created, which
requires the local create, every peer create and the final transaction to
have succeeded; any failure leaves the row state unchanged. -/
theorem netCreateFinish_main (inp : NetCreateInput) (st : Option NetworkState)
    (hst : st ≠ some NetworkState.created) :
    ((netCreateFinish inp st).2 = some .created ↔ (netCreateFinish inp st).1 = none) ∧
    ((netCreateFinish inp st).1 = none →
      inp.localCreateOk = true ∧ inp.peerOks.all id = true ∧ inp.finalTxOk = true) ∧
    ((netCreateFinish inp st).1 ≠ none → (netCreateFinish inp st).2 = st) := by
  by_cases h1 : inp.notifierOk <;> by_cases h2 : inp.loadOk <;>
    by_cases h3 : inp.localCreateOk <;> by_cases h4 : inp.peerOks.all id <;>
      by_cases h5 : inp.finalTxOk <;>
        simp [netCreateFinish, h1, h2, h3, h4, h5, hst]

/-- An error-leaf of `networksPostCluster`: the row state is left unchanged,
which is not the created state. -/
theorem netCreateErrLeaf (inp : NetCreateInput) (msg : String)
    (rowState : Option NetworkState)
    (hInit : rowState ≠ some NetworkState.created) :
    (((some msg, rowState) : Option String × Option NetworkState).2 = some .created ↔
      ((some msg, rowState) : Option String × Option NetworkState).1 = none) ∧
    (((some msg, rowState) : Option String × Option NetworkState).1 = none →
      inp.localCreateOk = true ∧ inp.peerOks.all id = true ∧ inp.finalTxOk = true) ∧
    (((some msg, rowState) : Option String × Option NetworkState).1 ≠ none →
      ((some msg, rowState) : Option String × Option NetworkState).2 = rowState ∨
      ((some msg, rowState) : Option String × Option NetworkState).2 = some .errored) := by
  refine ⟨?_, ?_, ?_⟩ <;> simp [hInit]

/-- Behaviour of the global-config transaction and its sequel: starting from
a row state that is not created, it ends created exactly when it returns no
error, success needs the local create, all peers and the final transaction,
and a failure leaves the state as it was or errored. -/
theorem netCreateTx_main (inp : NetCreateInput) (rowState : Option NetworkState)
    (hInit : rowState ≠ some NetworkState.created) :
    ((netCreateTx inp rowState).2 = some .created ↔
      (netCreateTx inp rowState).1 = none) ∧
    ((netCreateTx inp rowState).1 = none →
      inp.localCreateOk = true ∧ inp.peerOks.all id = true ∧ inp.finalTxOk = true) ∧
    ((netCreateTx inp rowState).1 ≠ none →
      (netCreateTx inp rowState).2 = rowState ∨
      (netCreateTx inp rowState).2 = some .errored) := by
  cases rowState with
  | none => exact netCreateErrLeaf inp _ none (by simp)
  | some s =>
    by_cases h6 : inp.nodeConfigsOk
    · by_cases h7 : inp.fillOk
      · by_cases h8 : inp.insertOk
        · have hval : netCreateTx inp (some s) = netCreateFinish inp (some .errored) := by
            simp only [netCreateTx]
            rw [if_neg (by simp [h6]), if_neg (by simp [h7]), if_neg (by simp [h8])]
          rw [hval]
          obtain ⟨l1, l2, l3⟩ := netCreateFinish_main inp (some .errored) (by simp)
          exact ⟨l1, l2, fun h => Or.inr (l3 h)⟩
        · have hval : netCreateTx inp (some s) =
              (some "Failed to insert global config", some s) := by
            simp only [netCreateTx]
            rw [if_neg (by simp [h6]), if_neg (by simp [h7]), if_pos (by simp [h8])]
          rw [hval]
          exact netCreateErrLeaf inp _ (some s) hInit
      · have hval : netCreateTx inp (some s) = (some "Failed to fill config", some s) := by
          simp only [netCreateTx]
          rw [if_neg (by simp [h6]), if_pos (by simp [h7])]
        rw [hval]
        exact netCreateErrLeaf inp _ (some s) hInit
    · have hval : netCreateTx inp (some s) = (some "Network not defined on nodes", some s) := by
        simp only [netCreateTx]
        rw [if_pos (by simp [h6])]
      rw [hval]
      exact netCreateErrLeaf inp _ (some s) hInit

/-- C1: a replicated network reaches state created only when every step of
`networksPostCluster` succeeded: the result state is created exactly when the
function returns no error, which requires the local `doNetworksCreate`, every
notified peer's create and the final `NetworkCreated` transaction to have
succeeded; on any error the row state is left either as it was (when the
global-config transaction, which atomically marks the network errored, did
not commit) or errored — never created. -/
theorem networksPostCluster_created_iff_success (inp : NetCreateInput)
    (rowState : Option NetworkState)
    (hInit : rowState ≠ some NetworkState.created) :
    ((networksPostCluster inp rowState).2 = some .created ↔
      (networksPostCluster inp rowState).1 = none) ∧
    ((networksPostCluster inp rowState).1 = none →
      inp.localCreateOk = true ∧ inp.peerOks.all id = true ∧ inp.finalTxOk = true) ∧
    ((networksPostCluster inp rowState).1 ≠ none →
      (networksPostCluster inp rowState).2 = rowState ∨
      (networksPostCluster inp rowState).2 = some .errored) := by
  by_cases hkeys : inp.reqConfig.any (fun kv => NodeSpecificNetworkConfig.contains kv.1) = true
  · have hval : networksPostCluster inp rowState =
        (some "Config key is node-specific", rowState) := by
      simp only [networksPostCluster]
      rw [if_pos hkeys]
    rw [hval]
    exact netCreateErrLeaf inp _ rowState hInit
  · cases hni : inp.netInfo with
    | none =>
      have hval : networksPostCluster inp rowState = netCreateTx inp rowState := by
        simp only [networksPostCluster]
        rw [if_neg hkeys, hni]
      rw [hval]
      exact netCreateTx_main inp rowState hInit
    | some i =>
      by_cases hstatus : i.status = NetworkState.created
      · have hval : networksPostCluster inp rowState =
            (some "The network is already created", rowState) := by
          simp only [networksPostCluster]
          rw [if_neg hkeys, hni]
          simp only []
          rw [if_pos hstatus]
        rw [hval]
        exact netCreateErrLeaf inp _ rowState hInit
      · by_cases htype : inp.reqType = i.netType
        · by_cases hpart : networkPartiallyCreated i = true
          · by_cases hconf : inp.reqConfig = []
            · have hval : networksPostCluster inp rowState =
                  netCreateFinish inp rowState := by
                simp only [networksPostCluster]
                rw [if_neg hkeys, hni]
                simp only [if_neg hstatus, if_neg (not_not_intro htype), if_pos hpart,
                  if_neg (not_not_intro hconf)]
              rw [hval]
              obtain ⟨l1, l2, l3⟩ := netCreateFinish_main inp rowState hInit
              exact ⟨l1, l2, fun h => Or.inl (l3 h)⟩
            · have hval : networksPostCluster inp rowState =
                  (some "Network already partially created. Please do not specify any global config when re-running create", rowState) := by
                simp only [networksPostCluster]
                rw [if_neg hkeys, hni]
                simp only [if_neg hstatus, if_neg (not_not_intro htype), if_pos hpart,
                  if_pos hconf]
              rw [hval]
              exact netCreateErrLeaf inp _ rowState hInit
          · have hval : networksPostCluster inp rowState = netCreateTx inp rowState := by
              simp only [networksPostCluster]
              rw [if_neg hkeys, hni]
              simp only [if_neg hstatus, if_neg (not_not_intro htype), if_neg hpart]
            rw [hval]
            exact netCreateTx_main inp rowState hInit
        · have hval : networksPostCluster inp rowState =
              (some "Requested network type doesn't match type in existing database record", rowState) := by
            simp only [networksPostCluster]
            rw [if_neg hkeys, hni]
            simp only [if_neg hstatus, if_pos htype]
          rw [hval]
          exact netCreateErrLeaf inp _ rowState hInit

/-- Witness for C1: a concrete pending bridge network with two peers where
every step succeeds ends in state created. -/
theorem networksPostCluster_created_iff_success_witness :
    (networksPostCluster
        { netInfo := some ⟨"n1", "bridge", .pending, []⟩
          reqType := "bridge", reqConfig := [], nodeConfigsOk := true
          fillOk := true, insertOk := true, notifierOk := true, loadOk := true
          localCreateOk := true, peerOks := [true, true], finalTxOk := true }
        (some .pending)).2 = some .created :=
  (networksPostCluster_created_iff_success _ (some .pending) (by simp)).1.mpr (by decide)

end LxdSpec
